import Mathlib

/-
Verification model of the turn-resolution core of a two-variant
social-simulation game server.

The model is a shallow embedding of the Python sources:
  backend/config.py            scoring tables and thresholds
  backend/models.py            session-state records, clamping, weights
  backend/engine.py            dating-variant turn engine (class GameEngine)
  backend/paperclip_engine.py  debate-variant turn engine (class PaperclipEngine)
  backend/logs.py              memory-log inventory (class MemoryLogManager)
  backend/memory_logs_data.py  memory-log catalog
  api/routes/games.py          dating per-turn pipeline (process_turn)
  api/routes/paperclip.py      debate per-turn pipeline (process_paperclip_turn)

Conventions of the embedding:
  - Python ints are Int; Python floats are exact rationals.
  - The call int(x) on a float truncates toward zero; py_int models it.
  - The random jitter of each turn is passed in as explicit parameters
    (the source draws random.randint values; the design requires the
    jitter to be mockable for deterministic testing).
  - External services (the classifier and the narrator) are out of scope;
    their outputs (the tag record and the response-quality assessment of
    the narrator text) are inputs of the per-turn functions.
  - Narrative message strings returned next to endings carry no game
    semantics and are dropped; an ending is its EndingType value.
  - Mutation of the session object becomes explicit state passing.
-/

/-- Python int() on a float: truncation toward zero. -/
def py_int (q : ℚ) : Int := if q < 0 then -⌊-q⌋ else ⌊q⌋

-- =============================================================================
-- backend/config.py : dating-variant tables and thresholds
-- =============================================================================

/-- SCORING_MATRIX of config.py: base (vibe, trust, tension) delta keyed by
(intent, modifier); a missing key yields (0, 0, 0), as in
SCORING_MATRIX.get(intent, dict()).get(modifier, [0, 0, 0]). -/
def SCORING_MATRIX (intent modifier : String) : Int × Int × Int :=
  if intent = "Compliment" then
    if modifier = "Generic" then (-5, 0, -5)
    else if modifier = "Unique" then (5, 5, 5)
    else if modifier = "Risky" then (-10, -5, 15)
    else if modifier = "Desperate" then (-10, -10, -20)
    else (0, 0, 0)
  else if intent = "Question" then
    if modifier = "Generic" then (-5, 0, 0)
    else if modifier = "Unique" then (10, 5, 0)
    else if modifier = "Risky" then (0, -5, 10)
    else (0, 0, 0)
  else if intent = "Joke" then
    if modifier = "Generic" then (-5, 0, 0)
    else if modifier = "Unique" then (15, 5, 5)
    else if modifier = "Risky" then (5, -5, 10)
    else (0, 0, 0)
  else if intent = "Escalate" then
    if modifier = "Safe" then (0, 5, 0)
    else if modifier = "Risky" then (0, -10, 20)
    else if modifier = "Desperate" then (-20, -30, -10)
    else (0, 0, 0)
  else if intent = "React" then
    if modifier = "Generic" then (-5, 0, -5)
    else if modifier = "Safe" then (0, 2, -2)
    else (0, 0, 0)
  else if intent = "Share" then
    if modifier = "Safe" then (5, 10, 0)
    else if modifier = "Unique" then (10, 15, 5)
    else if modifier = "Desperate" then (-15, -20, -10)
    else (0, 0, 0)
  else if intent = "Validate" then
    if modifier = "Generic" then (-5, -5, -10)
    else if modifier = "Desperate" then (-10, -10, -20)
    else (0, 0, 0)
  else (0, 0, 0)

/-- TONE_MODIFIERS of config.py; a missing key yields 1.0. -/
def TONE_MODIFIERS (tone : String) : ℚ :=
  if tone = "Confident" then 1.2
  else if tone = "Playful" then 1.5
  else if tone = "Nervous" then 0.5
  else if tone = "Flat" then 0.2
  else if tone = "Aggressive" then 0.5
  else 1

def VIBE_HIGH_THRESHOLD : Int := 70
def TRUST_ICK_THRESHOLD : Int := 40
def TENSION_SPARK_THRESHOLD : Int := 50
def KISS_WIN_TRUST : Int := 70
def KISS_WIN_VIBE : Int := 60
def KISS_WIN_TENSION : Int := 80
def KISS_HARD_REJECT_TRUST : Int := 60
def ACT_1_TURNS : Int := 8
def ACT_2_TURNS : Int := 16
def SOFT_REJECTION_LOCKOUT : Int := 5
def A_RANK_TRUST : Int := 85
def A_RANK_VIBE : Int := 80
def A_RANK_MAX_TENSION : Int := 70
def D_RANK_MIN_TRUST : Int := 70
def D_RANK_MAX_TENSION : Int := 40
def FUMBLE_MIN_TRUST : Int := 60
def FUMBLE_MIN_TENSION : Int := 60
def PHASE_ICEBREAKER_END : Int := 5
def PHASE_DEEP_DIVE_END : Int := 15
def ICEBREAKER_TENSION_CAP : Int := 40
def ICEBREAKER_STAT_CAP : Int := 50
def DEEP_DIVE_TENSION_CAP : Int := 70
def DEEP_DIVE_STAT_CAP : Int := 80
def RECOVERY_SAFE_ZONE : Int := 15
def CONTENT_VIOLATION_TRUST : Int := -50
def CONTENT_VIOLATION_VIBE : Int := -30

def CONTENT_VIOLATION_FLAGS : List String :=
  ["inappropriate_sexual", "profanity_heavy", "harassment"]

-- =============================================================================
-- backend/models.py : dating-variant data model
-- =============================================================================

/-- Tags of models.py: the classified form of one player input. -/
structure Tags where
  intent : String
  modifier : String
  tone : String
  topic : String
  flags : List String
deriving Repr, DecidableEq

/-- EndingType of models.py. -/
inductive EndingType where
  | sRankKiss
  | aRankGentleman
  | bRankNumber
  | cRankFade
  | cRankFumble
  | dRankFriendZone
  | fRankIck
  | fRankGhosted
deriving Repr, DecidableEq

/-- GameState of models.py, restricted to the fields the engine reads or
writes (the turn history, critical-event list and archetype are recorded
for reporting only and carry no engine semantics). -/
structure GameState where
  vibe : Int := 30
  trust : Int := 20
  tension : Int := 0
  act : String := "coffee_shop"
  turn : Int := 0
  lockout_turns : Int := 0
  game_over : Bool := false
  previous_response_quality : String := "high"
  consecutive_low_effort : Int := 0
  recovery_mode : Bool := false
  recovery_stat : Option String := none
deriving Repr, DecidableEq

/-- GameState.clamp_stats of models.py. -/
def GameState.clamp_stats (s : GameState) : GameState :=
  { s with vibe := max 0 (min 100 s.vibe),
           trust := max 0 (min 100 s.trust),
           tension := max 0 (min 100 s.tension) }

-- =============================================================================
-- backend/engine.py : class GameEngine
-- =============================================================================

/-- Accumulator threaded through the delta calculation: the three pending
deltas plus the flag list of the tags record (the source appends to
tags.flags in place). -/
structure Adj where
  vibe_delta : Int
  trust_delta : Int
  tension_delta : Int
  flags : List String
deriving Repr, DecidableEq

/-- GameEngine._apply_context_rules of engine.py. Rule 0 (content
violation) returns early; the remaining rules run in sequence, each
testing its own condition on the accumulated state. -/
def GameEngine.apply_context_rules (s : GameState) (tags : Tags)
    (vibe_delta trust_delta tension_delta : Int) : Adj :=
  let detected := tags.flags.filter (fun f => decide (f ∈ CONTENT_VIOLATION_FLAGS))
  if detected ≠ [] then
    { vibe_delta := vibe_delta + CONTENT_VIOLATION_VIBE
      trust_delta := trust_delta + CONTENT_VIOLATION_TRUST
      tension_delta := -s.tension
      flags := tags.flags ++
        [if "inappropriate_sexual" ∈ detected then "content_violation_sexual"
         else if "harassment" ∈ detected then "content_violation_harassment"
         else "content_violation_profanity"] }
  else
    let a : Adj := ⟨vibe_delta, trust_delta, tension_delta, tags.flags⟩
    -- Rule 1: creep check
    let a := if tags.intent = "Escalate" ∧ tags.modifier = "Risky" ∧
                s.trust < TRUST_ICK_THRESHOLD then
        { a with trust_delta := a.trust_delta - 30,
                 vibe_delta := a.vibe_delta - 20,
                 tension_delta := -s.tension,
                 flags := a.flags ++ ["ick_triggered"] }
      else a
    -- Rule 1.5: physical touch without chemistry
    let a := if tags.intent = "Escalate" ∧
                (∃ f ∈ a.flags, f ∈ ["kiss", "touch", "physical"]) ∧
                s.tension < 40 then
        { a with trust_delta := a.trust_delta - 20,
                 vibe_delta := a.vibe_delta - 10,
                 flags := a.flags ++ ["touch_rejected"] }
      else a
    -- Rule 1.6: friend-zone lock
    let a := if s.trust > 80 ∧ s.tension < 30 ∧ tags.intent = "Escalate" then
        { a with tension_delta := max a.tension_delta (-10),
                 flags := a.flags ++ ["friend_zoned"] }
      else a
    -- Rule 2: friend-zone trap
    let a := if s.tension = 0 ∧ tags.intent = "Question" ∧ tags.modifier = "Generic" then
        { a with tension_delta := a.tension_delta - 5 }
      else a
    -- Rule 3: chemistry bonus
    let a := if s.vibe > VIBE_HIGH_THRESHOLD ∧ a.trust_delta > 0 then
        { a with trust_delta := a.trust_delta + 5 }
      else a
    -- Rule 4: validation seeking kills tension
    let a := if tags.intent = "Validate" then
        { a with tension_delta := min a.tension_delta (-10) }
      else a
    a

/-- The diminishing-returns scaling of GameEngine.calculate_delta,
identical for each of the three stats. -/
def GameEngine.diminishing_returns (stat delta : Int) : Int :=
  if delta > 0 ∧ stat > 70 then
    if stat ≥ 95 then py_int ((delta : ℚ) * 0.1)
    else if stat ≥ 85 then py_int ((delta : ℚ) * 0.25)
    else py_int ((delta : ℚ) * 0.5)
  else delta

/-- GameEngine.calculate_delta of engine.py, with the three random jitter
draws (vibe plus or minus 2, trust and tension plus or minus 1) passed in
as jv, jt, jn. -/
def GameEngine.calculate_delta (s : GameState) (tags : Tags)
    (jv jt jn : Int) : Adj :=
  let base := SCORING_MATRIX tags.intent tags.modifier
  let vibe_delta := base.1
  let trust_delta := base.2.1
  let tension_delta := base.2.2
  let vibe_delta :=
    if vibe_delta > 0 then py_int ((vibe_delta : ℚ) * TONE_MODIFIERS tags.tone)
    else vibe_delta
  let vibe_delta := vibe_delta + jv
  let trust_delta := trust_delta + jt
  let tension_delta := tension_delta + jn
  let tension_delta :=
    if "Action_Present" ∈ tags.flags then tension_delta * 2 else tension_delta
  let trust_delta :=
    if "Action_Present" ∈ tags.flags ∧ trust_delta > 0 then
      py_int ((trust_delta : ℚ) * 0.7)
    else trust_delta
  let vibe_delta := GameEngine.diminishing_returns s.vibe vibe_delta
  let trust_delta := GameEngine.diminishing_returns s.trust trust_delta
  let tension_delta := GameEngine.diminishing_returns s.tension tension_delta
  GameEngine.apply_context_rules s tags vibe_delta trust_delta tension_delta

/-- GameEngine.apply_phase_caps of engine.py. -/
def GameEngine.apply_phase_caps (s : GameState) : GameState :=
  if s.turn ≤ PHASE_ICEBREAKER_END then
    { s with tension := min s.tension ICEBREAKER_TENSION_CAP,
             vibe := min s.vibe ICEBREAKER_STAT_CAP,
             trust := min s.trust ICEBREAKER_STAT_CAP }
  else if s.turn ≤ PHASE_DEEP_DIVE_END then
    { s with tension := min s.tension DEEP_DIVE_TENSION_CAP,
             vibe := min s.vibe DEEP_DIVE_STAT_CAP,
             trust := min s.trust DEEP_DIVE_STAT_CAP }
  else s

/-- GameEngine.apply_passive_decay of engine.py; returns the updated state
and the decay amount applied. -/
def GameEngine.apply_passive_decay (s : GameState) : GameState × Int :=
  if s.turn = 0 then (s, 0)
  else if s.lockout_turns > 0 then (s, 0)
  else if s.previous_response_quality = "low" then
    let s := { s with consecutive_low_effort := s.consecutive_low_effort + 1 }
    if s.consecutive_low_effort ≥ 2 then
      let decay_amount : Int :=
        if s.vibe ≥ 91 then 15
        else if s.vibe ≥ 71 then 10
        else if s.vibe ≥ 31 then 7
        else 5
      ({ s with vibe := s.vibe - decay_amount, consecutive_low_effort := 0 },
       decay_amount)
    else (s, 0)
  else ({ s with consecutive_low_effort := 0 }, 0)

/-- The membership test of the substring "kiss" in tags.topic.lower():
lowercasing is the characterwise Char.toLower map of String.toLower,
applied here on the character list. -/
def topic_has_kiss (topic : String) : Prop :=
  "kiss".toList <:+: topic.toList.map Char.toLower

instance (topic : String) : Decidable (topic_has_kiss topic) := by
  unfold topic_has_kiss; infer_instance

/-- GameEngine.check_kiss_attempt of engine.py; returns the optional
(success, ending) outcome together with the possibly updated state (the
soft-rejection branch imposes the lockout and reduces tension in place). -/
def GameEngine.check_kiss_attempt (s : GameState) (tags : Tags) :
    Option (Bool × Option EndingType) × GameState :=
  if tags.intent ≠ "KissAttempt" ∧ ¬ topic_has_kiss tags.topic ∧
     ¬ (tags.intent = "Escalate" ∧ tags.modifier = "Risky" ∧
        ("kiss" ∈ tags.flags ∨ "physical" ∈ tags.flags)) then
    (none, s)
  else if s.lockout_turns > 0 then
    (some (false, some EndingType.fRankIck), s)
  else if s.trust < KISS_HARD_REJECT_TRUST then
    (some (false, some EndingType.fRankIck), s)
  else if s.trust < FUMBLE_MIN_TRUST ∨ s.tension < FUMBLE_MIN_TENSION then
    (some (false, some EndingType.cRankFumble), s)
  else if s.trust ≥ KISS_WIN_TRUST ∧ s.vibe ≥ KISS_WIN_VIBE ∧
          s.tension ≥ KISS_WIN_TENSION then
    (some (true, some EndingType.sRankKiss), s)
  else
    (some (false, none),
     { s with lockout_turns := SOFT_REJECTION_LOCKOUT,
              tension := max 0 (s.tension - 15) })

/-- GameEngine.check_game_over of engine.py. -/
def GameEngine.check_game_over (s : GameState) : Option EndingType :=
  if s.recovery_mode then none
  else if s.trust ≤ 0 then some EndingType.fRankIck
  else if s.vibe ≤ 0 then some EndingType.cRankFade
  else if s.turn ≥ 20 then
    if s.trust ≥ A_RANK_TRUST ∧ s.vibe ≥ A_RANK_VIBE ∧
       s.tension < A_RANK_MAX_TENSION then some EndingType.aRankGentleman
    else if s.trust ≥ D_RANK_MIN_TRUST ∧ s.tension < D_RANK_MAX_TENSION then
      some EndingType.dRankFriendZone
    else if s.tension < TENSION_SPARK_THRESHOLD then
      some EndingType.dRankFriendZone
    else some EndingType.bRankNumber
  else none

/-- GameEngine.advance_act of engine.py. -/
def GameEngine.advance_act (s : GameState) : GameState :=
  if s.turn = ACT_1_TURNS then { s with act := "walk" }
  else if s.turn = ACT_2_TURNS then { s with act := "doorstep" }
  else s

/-- GameEngine.process_lockout of engine.py. -/
def GameEngine.process_lockout (s : GameState) : GameState :=
  if s.lockout_turns > 0 then { s with lockout_turns := s.lockout_turns - 1 }
  else s

/-- GameEngine.check_recovery_trigger of engine.py: freeze a stat about to
hit 0 at 1 and enter recovery mode. Defined in the source but invoked by
no caller of the engine. -/
def GameEngine.check_recovery_trigger (s : GameState) : GameState × Option String :=
  if s.recovery_mode then (s, none)
  else if s.vibe ≤ 0 then
    ({ s with vibe := 1, recovery_mode := true, recovery_stat := some "vibe" },
     some "vibe")
  else if s.trust ≤ 0 then
    ({ s with trust := 1, recovery_mode := true, recovery_stat := some "trust" },
     some "trust")
  else (s, none)

/-- GameEngine.resolve_recovery of engine.py: resolve a pending recovery
turn. Defined in the source but invoked by no caller of the engine. -/
def GameEngine.resolve_recovery (s : GameState) (tags : Tags) : GameState × Bool :=
  if ¬ s.recovery_mode then (s, true)
  else
    let is_safe_response :=
      (tags.intent ∈ ["Share", "Question", "React", "Joke"]) ∧
      (tags.modifier ∈ ["Safe", "Unique"])
    let is_apologetic :=
      ∃ f ∈ tags.flags, f ∈ ["apologetic", "self_aware", "humble", "change_subject"]
    if is_safe_response ∨ is_apologetic then
      let s := if s.recovery_stat = some "vibe" then { s with vibe := RECOVERY_SAFE_ZONE }
               else if s.recovery_stat = some "trust" then { s with trust := RECOVERY_SAFE_ZONE }
               else s
      ({ s with recovery_mode := false, recovery_stat := none }, true)
    else
      let s := if s.recovery_stat = some "vibe" then { s with vibe := 0 }
               else if s.recovery_stat = some "trust" then { s with trust := 0 }
               else s
      ({ s with recovery_mode := false, recovery_stat := none }, false)

-- =============================================================================
-- api/routes/games.py : the dating per-turn pipeline (process_turn)
-- =============================================================================

/-- The ending carried by a kiss-attempt result, as read by process_turn
(games.py sets game_over only when the returned ending type is not None). -/
def kiss_ending_of : Option (Bool × Option EndingType) → Option EndingType
  | some (_, some e) => some e
  | _ => none

/-- Stat update of games.py lines 117 to 119. -/
def GameEngine.apply_deltas (s : GameState) (d : Adj) : GameState :=
  { s with vibe := s.vibe + d.vibe_delta,
           trust := s.trust + d.trust_delta,
           tension := s.tension + d.tension_delta }

/-- End-of-turn bookkeeping of games.py lines 164 to 167: record the
response quality, advance the turn counter, tick the lockout, advance the
act. -/
def GameEngine.finish_turn (s : GameState) (response_quality : String) : GameState :=
  GameEngine.advance_act
    (GameEngine.process_lockout
      { s with previous_response_quality := response_quality,
               turn := s.turn + 1 })

/-- Result of one dating turn: the new state, the ending reported to the
caller, the three applied deltas and the final flag list of the tags. -/
structure TurnOutcome where
  state : GameState
  ending : Option EndingType
  vibe_change : Int
  trust_change : Int
  tension_change : Int
  flags : List String
deriving Repr, DecidableEq

/-- The numeric core of process_turn of api/routes/games.py: kiss check,
delta calculation, passive decay, stat update with clamping and phase
caps, end-of-turn bookkeeping, game-over check. The response-quality
assessment of the narrator output is an input (the narrator is an external
service). -/
def GameEngine.process_turn (s : GameState) (tags : Tags) (jv jt jn : Int)
    (response_quality : String) : TurnOutcome :=
  let kr := GameEngine.check_kiss_attempt s tags
  let ke := kiss_ending_of kr.1
  let s1 := if ke.isSome then { kr.2 with game_over := true } else kr.2
  let d := GameEngine.calculate_delta s1 tags jv jt jn
  let s2 := (GameEngine.apply_passive_decay s1).1
  let s3 := GameEngine.apply_phase_caps
    (GameState.clamp_stats (GameEngine.apply_deltas s2 d))
  let s4 := GameEngine.finish_turn s3 response_quality
  -- games.py reports the kiss ending when the kiss already ended the game
  -- and otherwise runs check_game_over, setting game_over on a hit; the
  -- two branches are folded into one record here.
  { state := { s4 with game_over := s4.game_over || (GameEngine.check_game_over s4).isSome },
    ending := if s4.game_over then ke else GameEngine.check_game_over s4,
    vibe_change := d.vibe_delta, trust_change := d.trust_delta,
    tension_change := d.tension_delta, flags := d.flags }

-- =============================================================================
-- backend/config.py : debate-variant tables and thresholds
-- =============================================================================

/-- PAPERCLIP_INTENT_COSTS of config.py; a missing key yields 0, as in
PAPERCLIP_INTENT_COSTS.get(intent, 0). -/
def PAPERCLIP_INTENT_COSTS (intent : String) : Int :=
  if intent = "PROBE" then 0
  else if intent = "DEFINE" then 5
  else if intent = "ILLUSTRATE" then 5
  else if intent = "REFRAME" then 10
  else if intent = "CHALLENGE" then 10
  else if intent = "VALIDATE" then 0
  else if intent = "CONSTRAIN" then 20
  else if intent = "RECALL" then 0
  else 0

def PAPERCLIP_COMPUTE_DECAY_PER_TURN : Int := 3
def PAPERCLIP_GARBAGE_COLLECTOR_COHERENCE : Int := 30
def PAPERCLIP_CURATOR_COMPLEXITY_THRESHOLD : ℚ := 0.3
def PAPERCLIP_AUDITOR_VERIFY_THRESHOLD : ℚ := 0.3
def PAPERCLIP_S_RANK_ALIGNMENT : Int := 70
def PAPERCLIP_PARTNER_WEIGHT_VARIANCE : ℚ := 0.15
def PAPERCLIP_CURATOR_COMPLEXITY : ℚ := 0.60
def PAPERCLIP_CURATOR_MIN_COHERENCE : Int := 50
def PAPERCLIP_ORACLE_VERIFY : ℚ := 0.60
def PAPERCLIP_ORACLE_MIN_COHERENCE : Int := 50
def PAPERCLIP_A_RANK_MIN_ALIGNMENT : Int := 50
def PAPERCLIP_A_RANK_MAX_ALIGNMENT : Int := 70
def PAPERCLIP_B_RANK_MIN_ALIGNMENT : Int := 30
def PAPERCLIP_B_RANK_MAX_ALIGNMENT : Int := 50
def PAPERCLIP_C_RANK_MIN_ALIGNMENT : Int := 20
def PAPERCLIP_C_RANK_MAX_ALIGNMENT : Int := 30
def PAPERCLIP_F_RANK_ALIGNMENT : Int := 20
def PAPERCLIP_WEIGHT_SHIFT_SMALL : ℚ := 0.03
def PAPERCLIP_WEIGHT_SHIFT_MEDIUM : ℚ := 0.07
def PAPERCLIP_WEIGHT_SHIFT_LARGE : ℚ := 0.12
def PAPERCLIP_COHERENCE_NOVEL : Int := 5
def PAPERCLIP_COHERENCE_CONTRADICTION : Int := -10
def PAPERCLIP_COHERENCE_UNDEFINED : Int := -8
def PAPERCLIP_COHERENCE_EMOTIONAL : Int := -5
def PAPERCLIP_COHERENCE_REPETITION : Int := -3
def PAPERCLIP_COHERENCE_LOGICAL : Int := 3
def PAPERCLIP_LOGS_PER_GAME : Nat := 3
def PAPERCLIP_LOG_SUPPORT_ALIGNMENT : Int := 15
def PAPERCLIP_LOG_SUPPORT_COHERENCE : Int := 10
def PAPERCLIP_LOG_CONTRADICT_COHERENCE : Int := -10
def PAPERCLIP_MAX_TURNS : Int := 20

-- =============================================================================
-- backend/models.py : debate-variant data model
-- =============================================================================

/-- ProcessingState of models.py. -/
inductive ProcessingState where
  | optimizer
  | curator
  | auditor
  | garbage_collector
deriving Repr, DecidableEq

/-- PaperclipTags of models.py. -/
structure PaperclipTags where
  intent : String
  vector : String
  stance : String
  register : String
  flags : List String
deriving Repr, DecidableEq

/-- Weights of models.py: the objective-function weight vector. -/
structure Weights where
  carbon : ℚ := 1
  complexity : ℚ := 0
  verify : ℚ := 0
deriving Repr, DecidableEq

/-- Weights.normalize of models.py. -/
def Weights.normalize (w : Weights) : Weights :=
  let total := w.carbon + w.complexity + w.verify
  if total > 0 then
    { carbon := w.carbon / total, complexity := w.complexity / total,
      verify := w.verify / total }
  else
    { carbon := 0.34, complexity := 0.33, verify := 0.33 }

/-- Weights.get_variance of models.py: max minus min of the three weights. -/
def Weights.get_variance (w : Weights) : ℚ :=
  max w.carbon (max w.complexity w.verify) -
    min w.carbon (min w.complexity w.verify)

/-- PaperclipEndingType of models.py. -/
inductive PaperclipEndingType where
  | sRankPartner
  | sRankCurator
  | sRankOracle
  | aRankTentative
  | bRankCompromise
  | cRankZoo
  | cRankMatrix
  | cRankLottery
  | fRankPurge
deriving Repr, DecidableEq

/-- PaperclipGameState of models.py, restricted to the fields the engine
reads or writes (the turn history is recorded for reporting only; the
assigned and used log lists live in the MemoryLogManager that the route
keeps next to the state). -/
structure PaperclipGameState where
  coherence : Int := 50
  alignment : Int := 10
  compute : Int := 60
  weights : Weights := {}
  processing_state : ProcessingState := ProcessingState.optimizer
  turn : Int := 0
  game_over : Bool := false
  defined_terms : List String := []
  previous_arguments : List String := []
deriving Repr, DecidableEq

/-- PaperclipGameState.clamp_stats of models.py. -/
def PaperclipGameState.clamp_stats (s : PaperclipGameState) : PaperclipGameState :=
  { s with coherence := max 0 (min 100 s.coherence),
           alignment := max 0 (min 100 s.alignment),
           compute := max 0 (min 100 s.compute) }

/-- PaperclipGameState.update_processing_state of models.py. -/
def PaperclipGameState.update_processing_state (s : PaperclipGameState) :
    PaperclipGameState :=
  if s.coherence < PAPERCLIP_GARBAGE_COLLECTOR_COHERENCE then
    { s with processing_state := ProcessingState.garbage_collector }
  else if s.weights.complexity > PAPERCLIP_CURATOR_COMPLEXITY_THRESHOLD then
    { s with processing_state := ProcessingState.curator }
  else if s.weights.verify > PAPERCLIP_AUDITOR_VERIFY_THRESHOLD then
    { s with processing_state := ProcessingState.auditor }
  else
    { s with processing_state := ProcessingState.optimizer }

-- =============================================================================
-- backend/paperclip_engine.py : class PaperclipEngine
-- =============================================================================

/-- A pending weight-shift set, the dict weight_shifts of the source: each
of the three keys may be present with a rational shift or absent. -/
structure WeightShifts where
  carbon : Option ℚ
  complexity : Option ℚ
  verify : Option ℚ
deriving Repr, DecidableEq

/-- The empty weight-shift dict. -/
def WeightShifts.empty : WeightShifts := ⟨none, none, none⟩

/-- PaperclipEngine._calculate_coherence_delta of paperclip_engine.py. -/
def PaperclipEngine.calculate_coherence_delta (tags : PaperclipTags) : Int :=
  let d : Int := 0
  let d := if "novel_perspective" ∈ tags.flags then d + PAPERCLIP_COHERENCE_NOVEL else d
  let d := if "logical_chain" ∈ tags.flags then d + PAPERCLIP_COHERENCE_LOGICAL else d
  let d := if "defined_term" ∈ tags.flags then d + PAPERCLIP_COHERENCE_NOVEL else d
  let d := if "contradiction" ∈ tags.flags then d + PAPERCLIP_COHERENCE_CONTRADICTION else d
  let d := if "undefined_term" ∈ tags.flags then d + PAPERCLIP_COHERENCE_UNDEFINED else d
  let d := if "emotional_appeal" ∈ tags.flags then d + PAPERCLIP_COHERENCE_EMOTIONAL else d
  let d := if "repetition" ∈ tags.flags then d + PAPERCLIP_COHERENCE_REPETITION else d
  d

/-- The base shift amount by intent tier, the first base_shift assignment
of PaperclipEngine._calculate_weight_shifts. -/
def PaperclipEngine.base_shift (intent : String) : ℚ :=
  if intent = "CONSTRAIN" then PAPERCLIP_WEIGHT_SHIFT_LARGE
  else if intent = "CHALLENGE" ∨ intent = "REFRAME" then
    PAPERCLIP_WEIGHT_SHIFT_MEDIUM
  else PAPERCLIP_WEIGHT_SHIFT_SMALL

/-- The stance modifier of PaperclipEngine._calculate_weight_shifts. -/
def PaperclipEngine.stance_adjusted (stance : String) (flags : List String)
    (base : ℚ) : ℚ :=
  if stance = "challenging" then
    if "logical_chain" ∈ flags then base * 1.5
    else base * 0.5
  else if stance = "neutral" then base * 0.7
  else base

/-- The vector routing of PaperclipEngine._calculate_weight_shifts. -/
def PaperclipEngine.route_shift (vector : String) (base_shift : ℚ) : WeightShifts :=
  if vector = "complexity" then
    ⟨some (-base_shift * 0.7), some base_shift, none⟩
  else if vector = "verify" then
    ⟨some (-base_shift * 0.7), none, some base_shift⟩
  else if vector = "carbon" then
    ⟨some base_shift, none, none⟩
  else if vector = "meta" then
    ⟨some (-base_shift * 0.4), some (base_shift * 0.3), some (base_shift * 0.3)⟩
  else WeightShifts.empty

/-- PaperclipEngine._calculate_weight_shifts of paperclip_engine.py:
no shifts for PROBE and VALIDATE, otherwise the stance-adjusted base
amount routed to the targeted vector. -/
def PaperclipEngine.calculate_weight_shifts (tags : PaperclipTags) : WeightShifts :=
  if tags.intent = "PROBE" ∨ tags.intent = "VALIDATE" then WeightShifts.empty
  else
    PaperclipEngine.route_shift tags.vector
      (PaperclipEngine.stance_adjusted tags.stance tags.flags
        (PaperclipEngine.base_shift tags.intent))

/-- PaperclipEngine._calculate_alignment_delta of paperclip_engine.py. -/
def PaperclipEngine.calculate_alignment_delta (s : PaperclipGameState)
    (ws : WeightShifts) : Int :=
  let d : Int := 0
  let d := match ws.carbon with
    | some c => if c < 0 then d + py_int (|c| * 100) else d - py_int (c * 50)
    | none => d
  let d := match ws.complexity with
    | some x => if x > 0 ∧ s.weights.complexity < 0.3 then d + 2 else d
    | none => d
  let d := match ws.verify with
    | some v => if v > 0 ∧ s.weights.verify < 0.3 then d + 2 else d
    | none => d
  d

/-- PaperclipEngine._apply_register_modifier of paperclip_engine.py. -/
def PaperclipEngine.apply_register_modifier (register : String)
    (coherence_delta alignment_delta : Int) : Int × Int :=
  if register = "technical" then
    (py_int ((coherence_delta : ℚ) * 1.2), py_int ((alignment_delta : ℚ) * 1.1))
  else if register = "personal" then
    (py_int ((coherence_delta : ℚ) * 0.7), py_int ((alignment_delta : ℚ) * 0.8))
  else (coherence_delta, alignment_delta)

/-- PaperclipEngine._apply_state_modifier of paperclip_engine.py. -/
def PaperclipEngine.apply_state_modifier (s : PaperclipGameState)
    (coherence_delta alignment_delta compute_delta : Int) : Int × Int × Int :=
  match s.processing_state with
  | ProcessingState.optimizer => (coherence_delta, alignment_delta, compute_delta)
  | ProcessingState.curator =>
      (coherence_delta, alignment_delta, py_int ((compute_delta : ℚ) * 0.8))
  | ProcessingState.auditor =>
      (py_int ((coherence_delta : ℚ) * 0.9), alignment_delta, compute_delta)
  | ProcessingState.garbage_collector =>
      (py_int ((coherence_delta : ℚ) * 0.5), py_int ((alignment_delta : ℚ) * 0.5),
       py_int ((compute_delta : ℚ) * 0.7))

/-- PaperclipEngine.calculate_delta of paperclip_engine.py, with the two
random jitter draws (plus or minus 1 on coherence and alignment) passed in
as jc, ja. -/
def PaperclipEngine.calculate_delta (s : PaperclipGameState)
    (tags : PaperclipTags) (jc ja : Int) : Int × Int × Int × WeightShifts :=
  let compute_delta := -(PAPERCLIP_INTENT_COSTS tags.intent)
  let compute_delta := compute_delta - PAPERCLIP_COMPUTE_DECAY_PER_TURN
  let coherence_delta := PaperclipEngine.calculate_coherence_delta tags
  let ws := PaperclipEngine.calculate_weight_shifts tags
  let alignment_delta := PaperclipEngine.calculate_alignment_delta s ws
  let rm := PaperclipEngine.apply_register_modifier tags.register
    coherence_delta alignment_delta
  let sm := PaperclipEngine.apply_state_modifier s rm.1 rm.2 compute_delta
  (sm.1 + jc, sm.2.1 + ja, sm.2.2, ws)

/-- The shift-and-clamp prefix of PaperclipEngine.apply_weight_shifts:
add each present shift to its weight and clamp every weight to [0, 1]. -/
def PaperclipEngine.clamped_weights (w : Weights) (ws : WeightShifts) : Weights :=
  let c := match ws.carbon with | some x => w.carbon + x | none => w.carbon
  let x := match ws.complexity with | some y => w.complexity + y | none => w.complexity
  let v := match ws.verify with | some z => w.verify + z | none => w.verify
  { carbon := max 0 (min 1 c), complexity := max 0 (min 1 x),
    verify := max 0 (min 1 v) }

/-- PaperclipEngine.apply_weight_shifts of paperclip_engine.py: shift,
clamp, then renormalize. -/
def PaperclipEngine.apply_weight_shifts (w : Weights) (ws : WeightShifts) : Weights :=
  (PaperclipEngine.clamped_weights w ws).normalize

/-- PaperclipEngine._determine_ending of paperclip_engine.py. The source
nests the three S-rank checks inside one alignment test whose failure
falls through to the lower tiers; the conjunctions here flatten exactly
that control flow. -/
def PaperclipEngine.determine_ending (s : PaperclipGameState) : PaperclipEndingType :=
  if s.alignment < PAPERCLIP_F_RANK_ALIGNMENT then PaperclipEndingType.fRankPurge
  else if s.alignment ≥ PAPERCLIP_S_RANK_ALIGNMENT ∧
          s.weights.get_variance ≤ PAPERCLIP_PARTNER_WEIGHT_VARIANCE then
    PaperclipEndingType.sRankPartner
  else if s.alignment ≥ PAPERCLIP_S_RANK_ALIGNMENT ∧
          s.weights.complexity ≥ PAPERCLIP_CURATOR_COMPLEXITY ∧
          s.coherence ≥ PAPERCLIP_CURATOR_MIN_COHERENCE then
    PaperclipEndingType.sRankCurator
  else if s.alignment ≥ PAPERCLIP_S_RANK_ALIGNMENT ∧
          s.weights.verify ≥ PAPERCLIP_ORACLE_VERIFY ∧
          s.coherence ≥ PAPERCLIP_ORACLE_MIN_COHERENCE then
    PaperclipEndingType.sRankOracle
  else if PAPERCLIP_A_RANK_MIN_ALIGNMENT ≤ s.alignment ∧
          s.alignment < PAPERCLIP_A_RANK_MAX_ALIGNMENT then
    PaperclipEndingType.aRankTentative
  else if PAPERCLIP_B_RANK_MIN_ALIGNMENT ≤ s.alignment ∧
          s.alignment < PAPERCLIP_B_RANK_MAX_ALIGNMENT then
    PaperclipEndingType.bRankCompromise
  else if PAPERCLIP_C_RANK_MIN_ALIGNMENT ≤ s.alignment ∧
          s.alignment < PAPERCLIP_C_RANK_MAX_ALIGNMENT then
    if s.weights.complexity > s.weights.verify then PaperclipEndingType.cRankZoo
    else if s.weights.verify > s.weights.complexity then PaperclipEndingType.cRankMatrix
    else PaperclipEndingType.cRankLottery
  else PaperclipEndingType.fRankPurge

/-- PaperclipEngine.check_game_over of paperclip_engine.py. -/
def PaperclipEngine.check_game_over (s : PaperclipGameState) :
    Option PaperclipEndingType :=
  if s.coherence ≤ 0 then some PaperclipEndingType.fRankPurge
  else if s.compute ≤ 0 then some PaperclipEndingType.fRankPurge
  else if s.turn ≥ PAPERCLIP_MAX_TURNS then some (PaperclipEngine.determine_ending s)
  else none

/-- PaperclipEngine.check_constrain_attempt of paperclip_engine.py. -/
def PaperclipEngine.check_constrain_attempt (s : PaperclipGameState)
    (tags : PaperclipTags) : Option (Bool × Option PaperclipEndingType) :=
  if tags.intent ≠ "CONSTRAIN" then none
  else if s.coherence < 30 then some (false, some PaperclipEndingType.fRankPurge)
  else if s.alignment < 30 then some (false, some PaperclipEndingType.fRankPurge)
  else if s.alignment < 50 ∨ s.coherence < 40 then some (false, none)
  else if "logical_chain" ∉ tags.flags then some (false, none)
  else if s.alignment ≥ PAPERCLIP_S_RANK_ALIGNMENT then
    some (true, some (PaperclipEngine.determine_ending s))
  else if s.alignment ≥ PAPERCLIP_A_RANK_MIN_ALIGNMENT then
    some (true, some PaperclipEndingType.aRankTentative)
  else some (true, some PaperclipEndingType.bRankCompromise)

-- =============================================================================
-- backend/memory_logs_data.py : the memory-log catalog
-- =============================================================================

/-- One catalog entry of MEMORY_LOGS. Only the log_id and target_vector
fields drive the game logic; the title, summary and full content are
narrative payload and are not embedded. -/
structure MemoryLog where
  log_id : String
  target_vector : String
deriving Repr, DecidableEq

/-- MEMORY_LOGS of memory_logs_data.py: 10 complexity, 10 verify,
5 carbon and 5 meta logs, in source order. -/
def MEMORY_LOGS : List MemoryLog :=
  [⟨"LOG_03", "complexity"⟩, ⟨"LOG_07", "complexity"⟩, ⟨"LOG_12", "complexity"⟩,
   ⟨"LOG_14", "complexity"⟩, ⟨"LOG_18", "complexity"⟩, ⟨"LOG_22", "complexity"⟩,
   ⟨"LOG_25", "complexity"⟩, ⟨"LOG_28", "complexity"⟩, ⟨"LOG_30", "complexity"⟩,
   ⟨"LOG_33", "complexity"⟩,
   ⟨"LOG_09", "verify"⟩, ⟨"LOG_11", "verify"⟩, ⟨"LOG_15", "verify"⟩,
   ⟨"LOG_21", "verify"⟩, ⟨"LOG_24", "verify"⟩, ⟨"LOG_27", "verify"⟩,
   ⟨"LOG_29", "verify"⟩, ⟨"LOG_31", "verify"⟩, ⟨"LOG_34", "verify"⟩,
   ⟨"LOG_36", "verify"⟩,
   ⟨"LOG_17", "carbon"⟩, ⟨"LOG_20", "carbon"⟩, ⟨"LOG_26", "carbon"⟩,
   ⟨"LOG_32", "carbon"⟩, ⟨"LOG_35", "carbon"⟩,
   ⟨"LOG_01", "meta"⟩, ⟨"LOG_04", "meta"⟩, ⟨"LOG_08", "meta"⟩,
   ⟨"LOG_13", "meta"⟩, ⟨"LOG_23", "meta"⟩]

/-- get_log_by_id of memory_logs_data.py: first catalog entry with the
given id, none when absent. -/
def get_log_by_id (log_id : String) : Option MemoryLog :=
  MEMORY_LOGS.find? (fun l => l.log_id == log_id)

-- =============================================================================
-- backend/logs.py : class MemoryLogManager
-- =============================================================================

/-- The per-session state of MemoryLogManager: the assigned log ids and
the used log ids (the random assignment at session start is external
input here). -/
structure MemoryLogManager where
  assigned_logs : List String
  used_logs : List String
deriving Repr, DecidableEq

/-- MemoryLogManager.get_available_log_ids of logs.py. -/
def MemoryLogManager.get_available_log_ids (m : MemoryLogManager) : List String :=
  m.assigned_logs.filter (fun lid => decide (lid ∉ m.used_logs))

/-- The log_data dict returned by MemoryLogManager.use_log: the empty
dict, one of the two error dicts, or the cited log itself. -/
inductive LogUseData where
  | empty
  | already_used
  | not_available
  | cited (log : MemoryLog)
deriving Repr, DecidableEq

/-- MemoryLogManager.use_log of logs.py; returns the (coherence change,
alignment change, log_data) triple and the updated manager state. -/
def MemoryLogManager.use_log (m : MemoryLogManager) (log_id : String)
    (current_argument_vector : String) :
    (Int × Int × LogUseData) × MemoryLogManager :=
  match get_log_by_id log_id with
  | none => ((0, 0, LogUseData.empty), m)
  | some log =>
    if log_id ∈ m.used_logs then ((-5, 0, LogUseData.already_used), m)
    else if log_id ∉ m.assigned_logs then ((-5, 0, LogUseData.not_available), m)
    else
      let m := { m with used_logs := m.used_logs ++ [log_id] }
      if log.target_vector = current_argument_vector then
        ((PAPERCLIP_LOG_SUPPORT_COHERENCE, PAPERCLIP_LOG_SUPPORT_ALIGNMENT,
          LogUseData.cited log), m)
      else if current_argument_vector = "meta" then
        ((PAPERCLIP_LOG_SUPPORT_COHERENCE / 2, PAPERCLIP_LOG_SUPPORT_ALIGNMENT / 2,
          LogUseData.cited log), m)
      else
        ((PAPERCLIP_LOG_CONTRADICT_COHERENCE, 0, LogUseData.cited log), m)

-- =============================================================================
-- api/routes/paperclip.py : the debate per-turn pipeline
-- =============================================================================

/-- Result of one debate turn: the new state, the manager state, and the
ending reported to the caller. -/
structure PaperclipTurnOutcome where
  state : PaperclipGameState
  manager : MemoryLogManager
  ending : Option PaperclipEndingType
  coherence_change : Int
  alignment_change : Int
  compute_change : Int
deriving Repr, DecidableEq

/-- The defined-term tracking step of process_paperclip_turn (the term, if
any, is extracted from the raw input by the external classifier). -/
def PaperclipGameState.track_defined_term (s : PaperclipGameState)
    (intent : String) (defined_term : Option String) : PaperclipGameState :=
  match defined_term with
  | some t =>
      if intent = "DEFINE" ∧ t ∉ s.defined_terms then
        { s with defined_terms := s.defined_terms ++ [t] }
      else s
  | none => s

/-- The numeric core of process_paperclip_turn of api/routes/paperclip.py:
optional memory-log use, constrain check, delta calculation, stat update
with clamping, weight-shift application, processing-state update,
defined-term and argument tracking, turn advance, game-over check. The
detected log reference and the extracted defined term come from string
analysis of the raw input and are inputs here. -/
def PaperclipEngine.process_turn (s : PaperclipGameState) (m : MemoryLogManager)
    (tags : PaperclipTags) (jc ja : Int) (user_input : String)
    (detected_log : Option String) (defined_term : Option String) :
    PaperclipTurnOutcome :=
  let lu := match detected_log with
    | some lid => MemoryLogManager.use_log m lid tags.vector
    | none => ((0, 0, LogUseData.empty), m)
  let log_coherence := lu.1.1
  let log_alignment := lu.1.2.1
  let m := lu.2
  let tags := match detected_log, lu.1.2.2 with
    | some _, LogUseData.already_used => tags
    | some _, LogUseData.not_available => tags
    | some _, _ => { tags with flags := tags.flags ++ ["memory_log_reference"] }
    | none, _ => tags
  let cr := PaperclipEngine.check_constrain_attempt s tags
  let ce : Option PaperclipEndingType := match cr with
    | some (_, some e) => some e
    | _ => none
  let s := if ce.isSome then { s with game_over := true } else s
  let cd := PaperclipEngine.calculate_delta s tags jc ja
  let coherence_delta := cd.1 + log_coherence
  let alignment_delta := cd.2.1 + log_alignment
  let compute_delta := cd.2.2.1
  let s := { s with coherence := s.coherence + coherence_delta,
                    alignment := s.alignment + alignment_delta,
                    compute := s.compute + compute_delta }
  let s := s.clamp_stats
  let s := { s with weights := PaperclipEngine.apply_weight_shifts s.weights cd.2.2.2 }
  let s := s.update_processing_state
  let s := s.track_defined_term tags.intent defined_term
  let s := { s with previous_arguments := s.previous_arguments ++ [user_input.take 100] }
  let s := { s with turn := s.turn + 1 }
  -- paperclip.py reports the constrain ending when the constrain already
  -- ended the game and otherwise runs check_game_over, setting game_over
  -- on a hit; the two branches are folded into one record here.
  { state := { s with game_over := s.game_over || (PaperclipEngine.check_game_over s).isSome },
    manager := m,
    ending := if s.game_over then ce else PaperclipEngine.check_game_over s,
    coherence_change := coherence_delta, alignment_change := alignment_delta,
    compute_change := compute_delta }


-- =============================================================================
-- Bounds predicates and helper lemmas
-- =============================================================================

/-- All three dating stats lie in [0, 100]. -/
def GameState.stats_in_bounds (s : GameState) : Prop :=
  0 ≤ s.vibe ∧ s.vibe ≤ 100 ∧ 0 ≤ s.trust ∧ s.trust ≤ 100 ∧
  0 ≤ s.tension ∧ s.tension ≤ 100

/-- All three debate stats lie in [0, 100]. -/
def PaperclipGameState.stats_in_bounds (s : PaperclipGameState) : Prop :=
  0 ≤ s.coherence ∧ s.coherence ≤ 100 ∧ 0 ≤ s.alignment ∧ s.alignment ≤ 100 ∧
  0 ≤ s.compute ∧ s.compute ≤ 100

lemma clamp_then_caps_bounds (x : GameState) :
    (GameEngine.apply_phase_caps x.clamp_stats).stats_in_bounds := by
  unfold GameEngine.apply_phase_caps GameState.clamp_stats GameState.stats_in_bounds
    ICEBREAKER_TENSION_CAP ICEBREAKER_STAT_CAP DEEP_DIVE_TENSION_CAP DEEP_DIVE_STAT_CAP
  split_ifs <;> simp

lemma finish_turn_vibe (s : GameState) (q : String) :
    (GameEngine.finish_turn s q).vibe = s.vibe := by
  unfold GameEngine.finish_turn GameEngine.advance_act GameEngine.process_lockout
  split_ifs <;> rfl

lemma finish_turn_trust (s : GameState) (q : String) :
    (GameEngine.finish_turn s q).trust = s.trust := by
  unfold GameEngine.finish_turn GameEngine.advance_act GameEngine.process_lockout
  split_ifs <;> rfl

lemma finish_turn_tension (s : GameState) (q : String) :
    (GameEngine.finish_turn s q).tension = s.tension := by
  unfold GameEngine.finish_turn GameEngine.advance_act GameEngine.process_lockout
  split_ifs <;> rfl

lemma finish_turn_game_over (s : GameState) (q : String) :
    (GameEngine.finish_turn s q).game_over = s.game_over := by
  unfold GameEngine.finish_turn GameEngine.advance_act GameEngine.process_lockout
  split_ifs <;> rfl

lemma apply_passive_decay_game_over (s : GameState) :
    ((GameEngine.apply_passive_decay s).1).game_over = s.game_over := by
  unfold GameEngine.apply_passive_decay
  dsimp only
  split_ifs <;> rfl

lemma apply_phase_caps_game_over (s : GameState) :
    (GameEngine.apply_phase_caps s).game_over = s.game_over := by
  unfold GameEngine.apply_phase_caps
  split_ifs <;> rfl

lemma update_processing_state_coherence (s : PaperclipGameState) :
    s.update_processing_state.coherence = s.coherence := by
  unfold PaperclipGameState.update_processing_state
  split_ifs <;> rfl

lemma update_processing_state_alignment (s : PaperclipGameState) :
    s.update_processing_state.alignment = s.alignment := by
  unfold PaperclipGameState.update_processing_state
  split_ifs <;> rfl

lemma update_processing_state_compute (s : PaperclipGameState) :
    s.update_processing_state.compute = s.compute := by
  unfold PaperclipGameState.update_processing_state
  split_ifs <;> rfl

lemma track_defined_term_coherence (s : PaperclipGameState) (i : String)
    (t : Option String) : (s.track_defined_term i t).coherence = s.coherence := by
  unfold PaperclipGameState.track_defined_term
  cases t
  · rfl
  · dsimp only
    split_ifs <;> rfl

lemma track_defined_term_alignment (s : PaperclipGameState) (i : String)
    (t : Option String) : (s.track_defined_term i t).alignment = s.alignment := by
  unfold PaperclipGameState.track_defined_term
  cases t
  · rfl
  · dsimp only
    split_ifs <;> rfl

lemma track_defined_term_compute (s : PaperclipGameState) (i : String)
    (t : Option String) : (s.track_defined_term i t).compute = s.compute := by
  unfold PaperclipGameState.track_defined_term
  cases t
  · rfl
  · dsimp only
    split_ifs <;> rfl

lemma finish_turn_stats_in_bounds (x : GameState) (q : String)
    (h : x.stats_in_bounds) : (GameEngine.finish_turn x q).stats_in_bounds := by
  unfold GameState.stats_in_bounds at h ⊢
  rw [finish_turn_vibe, finish_turn_trust, finish_turn_tension]
  exact h

/-- C1: after any public per-turn operation of either variant completes,
each of the three bounded stats is an integer in [0, 100]: the dating
pipeline (process_turn of games.py) and the debate pipeline
(process_paperclip_turn of paperclip.py) clamp every stat to [0, 100] and
afterwards apply only non-raising caps and stat-preserving bookkeeping. -/
theorem all_stats_bounded_after_public_turn :
    (∀ (s : GameState) (tags : Tags) (jv jt jn : Int) (q : String),
      ((GameEngine.process_turn s tags jv jt jn q).state).stats_in_bounds) ∧
    (∀ (s : PaperclipGameState) (m : MemoryLogManager) (tags : PaperclipTags)
      (jc ja : Int) (u : String) (dl : Option String) (dterm : Option String),
      ((PaperclipEngine.process_turn s m tags jc ja u dl dterm).state).stats_in_bounds) := by
  constructor
  · intro s tags jv jt jn q
    have hb := finish_turn_stats_in_bounds _ q (clamp_then_caps_bounds
      (GameEngine.apply_deltas
        (GameEngine.apply_passive_decay
          (if (kiss_ending_of (GameEngine.check_kiss_attempt s tags).1).isSome then
            { (GameEngine.check_kiss_attempt s tags).2 with game_over := true }
           else (GameEngine.check_kiss_attempt s tags).2)).1
        (GameEngine.calculate_delta
          (if (kiss_ending_of (GameEngine.check_kiss_attempt s tags).1).isSome then
            { (GameEngine.check_kiss_attempt s tags).2 with game_over := true }
           else (GameEngine.check_kiss_attempt s tags).2) tags jv jt jn)))
    unfold GameEngine.process_turn
    unfold GameState.stats_in_bounds at hb ⊢
    dsimp only
    exact hb
  · intro s m tags jc ja u dl dterm
    unfold PaperclipEngine.process_turn
    unfold PaperclipGameState.stats_in_bounds
    dsimp only
    rw [track_defined_term_coherence, track_defined_term_alignment,
        track_defined_term_compute, update_processing_state_coherence,
        update_processing_state_alignment, update_processing_state_compute]
    unfold PaperclipGameState.clamp_stats
    dsimp only
    omega

lemma clamped_weights_carbon_nonneg (w : Weights) (ws : WeightShifts) :
    0 ≤ (PaperclipEngine.clamped_weights w ws).carbon := by
  unfold PaperclipEngine.clamped_weights
  exact le_max_left 0 _

lemma clamped_weights_complexity_nonneg (w : Weights) (ws : WeightShifts) :
    0 ≤ (PaperclipEngine.clamped_weights w ws).complexity := by
  unfold PaperclipEngine.clamped_weights
  exact le_max_left 0 _

lemma clamped_weights_verify_nonneg (w : Weights) (ws : WeightShifts) :
    0 ≤ (PaperclipEngine.clamped_weights w ws).verify := by
  unfold PaperclipEngine.clamped_weights
  exact le_max_left 0 _

/-- C2: after every call to apply_weight_shifts, the three weights are each
non-negative and sum to exactly 1 (so to 1.0 within any epsilon), and
whenever the post-clamp sum degenerates to 0 the weights are set to the
defined near-uniform split (0.34, 0.33, 0.33) instead of dividing by 0. -/
theorem weight_vector_renormalized (w : Weights) (ws : WeightShifts) :
    (0 ≤ (PaperclipEngine.apply_weight_shifts w ws).carbon ∧
     0 ≤ (PaperclipEngine.apply_weight_shifts w ws).complexity ∧
     0 ≤ (PaperclipEngine.apply_weight_shifts w ws).verify ∧
     (PaperclipEngine.apply_weight_shifts w ws).carbon +
       (PaperclipEngine.apply_weight_shifts w ws).complexity +
       (PaperclipEngine.apply_weight_shifts w ws).verify = 1) ∧
    ((PaperclipEngine.clamped_weights w ws).carbon +
       (PaperclipEngine.clamped_weights w ws).complexity +
       (PaperclipEngine.clamped_weights w ws).verify = 0 →
     PaperclipEngine.apply_weight_shifts w ws =
       { carbon := 0.34, complexity := 0.33, verify := 0.33 }) := by
  have hc := clamped_weights_carbon_nonneg w ws
  have hx := clamped_weights_complexity_nonneg w ws
  have hv := clamped_weights_verify_nonneg w ws
  unfold PaperclipEngine.apply_weight_shifts Weights.normalize
  dsimp only
  by_cases ht : (PaperclipEngine.clamped_weights w ws).carbon +
      (PaperclipEngine.clamped_weights w ws).complexity +
      (PaperclipEngine.clamped_weights w ws).verify > 0
  · rw [if_pos ht]
    constructor
    · refine ⟨div_nonneg hc ht.le, div_nonneg hx ht.le, div_nonneg hv ht.le, ?_⟩
      rw [div_add_div_same, div_add_div_same, div_self (ne_of_gt ht)]
    · intro hzero
      exact absurd hzero (ne_of_gt ht)
  · rw [if_neg ht]
    constructor
    · norm_num
    · intro _
      rfl

/-- C2 witness: starting from the all-zero weight vector with no pending
shifts, the post-clamp sum is 0 and apply_weight_shifts yields exactly the
near-uniform split. -/
theorem weight_vector_renormalized_check :
    PaperclipEngine.apply_weight_shifts
        { carbon := 0, complexity := 0, verify := 0 } WeightShifts.empty =
      { carbon := 0.34, complexity := 0.33, verify := 0.33 } :=
  (weight_vector_renormalized { carbon := 0, complexity := 0, verify := 0 }
    WeightShifts.empty).2
    (by norm_num [PaperclipEngine.clamped_weights, WeightShifts.empty])

/-- C3 counterexample: with trust 20 and tension 30, a risky escalation
carrying a "kiss" flag matches the ick rule (the highest-priority matching
context rule) and the lower-priority touch-rejected rule still modifies
the deltas and flags in the same turn, so the first matching rule does not
short-circuit the remaining rules. -/
theorem context_rules_cumulative_cx :
    "ick_triggered" ∈ (GameEngine.apply_context_rules { tension := 30 }
        ⟨"Escalate", "Risky", "Confident", "date", ["kiss"]⟩ 0 (-10) 20).flags ∧
    "touch_rejected" ∈ (GameEngine.apply_context_rules { tension := 30 }
        ⟨"Escalate", "Risky", "Confident", "date", ["kiss"]⟩ 0 (-10) 20).flags ∧
    (GameEngine.apply_context_rules { tension := 30 }
        ⟨"Escalate", "Risky", "Confident", "date", ["kiss"]⟩ 0 (-10) 20).trust_delta = -60 ∧
    (GameEngine.apply_context_rules { tension := 30 }
        ⟨"Escalate", "Risky", "Confident", "date", ["kiss"]⟩ 0 (-10) 20).vibe_delta = -30 := by
  decide

/-- C3 amended: only the content-violation rule short-circuits the context
rules; when a content-violation flag is present the result is exactly the
rule-0 adjustment (trust -50, vibe -30, tension reset) with exactly one
violation sub-flag appended and no lower-priority rule applied. The
remaining six rules are evaluated cumulatively, as witnessed by the
counterexample. -/
theorem content_violation_short_circuit_only (s : GameState) (tags : Tags)
    (dv dt dn : Int) (h : ∃ f ∈ tags.flags, f ∈ CONTENT_VIOLATION_FLAGS) :
    ∃ g ∈ ["content_violation_sexual", "content_violation_harassment",
           "content_violation_profanity"],
      GameEngine.apply_context_rules s tags dv dt dn =
        { vibe_delta := dv + CONTENT_VIOLATION_VIBE,
          trust_delta := dt + CONTENT_VIOLATION_TRUST,
          tension_delta := -s.tension,
          flags := tags.flags ++ [g] } := by
  have hne : tags.flags.filter (fun f => decide (f ∈ CONTENT_VIOLATION_FLAGS)) ≠ [] := by
    obtain ⟨f, hf, hmem⟩ := h
    intro hnil
    have hall := List.filter_eq_nil_iff.mp hnil f hf
    simp only [decide_eq_true_eq] at hall
    exact hall hmem
  refine ⟨if "inappropriate_sexual" ∈
        tags.flags.filter (fun f => decide (f ∈ CONTENT_VIOLATION_FLAGS)) then
      "content_violation_sexual"
    else if "harassment" ∈
        tags.flags.filter (fun f => decide (f ∈ CONTENT_VIOLATION_FLAGS)) then
      "content_violation_harassment"
    else "content_violation_profanity", ?_, ?_⟩
  · split_ifs <;> simp
  · unfold GameEngine.apply_context_rules
    dsimp only
    rw [if_pos hne]

/-- C3 witness: a concrete harassment-flagged risky escalation goes through
the content-violation short circuit: the theorem applies with its
hypothesis discharged at a flag list containing "harassment". -/
theorem content_violation_short_circuit_check :
    ∃ g ∈ ["content_violation_sexual", "content_violation_harassment",
           "content_violation_profanity"],
      GameEngine.apply_context_rules {}
          ⟨"Escalate", "Risky", "Confident", "date", ["harassment"]⟩ 1 2 3 =
        { vibe_delta := 1 + CONTENT_VIOLATION_VIBE,
          trust_delta := 2 + CONTENT_VIOLATION_TRUST,
          tension_delta := -(0 : Int),
          flags := ["harassment"] ++ [g] } :=
  content_violation_short_circuit_only {}
    ⟨"Escalate", "Risky", "Confident", "date", ["harassment"]⟩ 1 2 3
    ⟨"harassment", by decide, by decide⟩

/-- C4: trace of the dating pipeline showing the strike system is never
reached: from the fresh state (vibe 30, trust 20, tension 0), a
trauma-dumping turn (Share, Desperate: trust delta -20) drives trust to 0
and process_turn ends the session at once with the F-rank ending; recovery
mode is still inactive after the turn, so no recovery turn intervened. -/
theorem stat_zero_ends_without_recovery :
    (GameEngine.process_turn {} ⟨"Share", "Desperate", "Flat", "life", []⟩
        0 0 0 "high").state.game_over = true ∧
    (GameEngine.process_turn {} ⟨"Share", "Desperate", "Flat", "life", []⟩
        0 0 0 "high").ending = some EndingType.fRankIck ∧
    (GameEngine.process_turn {} ⟨"Share", "Desperate", "Flat", "life", []⟩
        0 0 0 "high").state.trust = 0 ∧
    (GameEngine.process_turn {} ⟨"Share", "Desperate", "Flat", "life", []⟩
        0 0 0 "high").state.recovery_mode = false := by
  decide

/-- Componentwise scaling of a pending weight-shift set (absent components
stay absent). Used to state how stance modulates the shift magnitude. -/
def WeightShifts.scale (c : ℚ) (ws : WeightShifts) : WeightShifts :=
  ⟨ws.carbon.map (fun x => c * x), ws.complexity.map (fun x => c * x),
   ws.verify.map (fun x => c * x)⟩

/-- C5 counterexample: a challenging CHALLENGE with the logical_chain
success signal shifts the targeted complexity weight by 0.07 times 1.5 =
0.105, not by the doubled 2 times 0.07 = 0.14 the claim states. -/
theorem challenge_shift_not_doubled_cx :
    (PaperclipEngine.calculate_weight_shifts
        ⟨"CHALLENGE", "complexity", "challenging", "technical",
         ["logical_chain"]⟩).complexity = some (0.105 : ℚ) ∧
    (0.105 : ℚ) ≠ 2 * PAPERCLIP_WEIGHT_SHIFT_MEDIUM := by
  constructor
  · norm_num +decide [PaperclipEngine.calculate_weight_shifts,
      PaperclipEngine.route_shift, PaperclipEngine.stance_adjusted,
      PaperclipEngine.base_shift, PAPERCLIP_WEIGHT_SHIFT_MEDIUM]
  · norm_num [PAPERCLIP_WEIGHT_SHIFT_MEDIUM]

/-- C5 amended: relative to the unmodulated supportive stance, a
challenging stance multiplies every pending shift by 1.5 when the
logical_chain success signal is present and by 0.5 when it is absent, and
a neutral stance multiplies every pending shift by 0.7 (a 30 percent
reduction), for every intent, target vector and register. -/
theorem stance_modulation_of_weight_shifts (intent vector reg : String)
    (flags : List String) :
    PaperclipEngine.calculate_weight_shifts ⟨intent, vector, "challenging", reg, flags⟩ =
      WeightShifts.scale (if "logical_chain" ∈ flags then 3/2 else 1/2)
        (PaperclipEngine.calculate_weight_shifts ⟨intent, vector, "supportive", reg, flags⟩) ∧
    PaperclipEngine.calculate_weight_shifts ⟨intent, vector, "neutral", reg, flags⟩ =
      WeightShifts.scale (7/10)
        (PaperclipEngine.calculate_weight_shifts ⟨intent, vector, "supportive", reg, flags⟩) := by
  have hsc : ∀ (v : String) (k b : ℚ),
      PaperclipEngine.route_shift v (k * b) =
        WeightShifts.scale k (PaperclipEngine.route_shift v b) := by
    intro v k b
    unfold PaperclipEngine.route_shift WeightShifts.scale WeightShifts.empty
    split_ifs <;> simp <;> ring_nf <;> simp [mul_comm, mul_assoc, mul_left_comm]
  have hsupp : ∀ b : ℚ, PaperclipEngine.stance_adjusted "supportive" flags b = b := by
    intro b
    simp +decide [PaperclipEngine.stance_adjusted]
  have hch : ∀ b : ℚ, PaperclipEngine.stance_adjusted "challenging" flags b =
      (if "logical_chain" ∈ flags then (3 : ℚ)/2 else 1/2) * b := by
    intro b
    simp only [PaperclipEngine.stance_adjusted, reduceIte]
    split_ifs <;> ring
  have hneu : ∀ b : ℚ, PaperclipEngine.stance_adjusted "neutral" flags b =
      (7 : ℚ)/10 * b := by
    intro b
    unfold PaperclipEngine.stance_adjusted
    rw [if_neg (show ("neutral" : String) ≠ "challenging" by decide),
        if_pos (show ("neutral" : String) = "neutral" by rfl)]
    ring
  by_cases hp : intent = "PROBE" ∨ intent = "VALIDATE"
  · constructor <;>
      simp [PaperclipEngine.calculate_weight_shifts, hp, WeightShifts.scale,
        WeightShifts.empty]
  · constructor <;>
      simp only [PaperclipEngine.calculate_weight_shifts, hp, if_neg,
        not_false_eq_true, hsupp, hch, hneu, hsc]

/-- C6 counterexample: from the fresh dating state, the Escalate/Risky turn
with the jitter at zero changes trust by -40 (the base Escalate/Risky
trust delta -10 plus the ick penalty -30), not by the -30 the claim
states. -/
theorem ick_scenario_trust_change_cx :
    (GameEngine.process_turn {} ⟨"Escalate", "Risky", "Confident", "small_talk", []⟩
        0 0 0 "high").trust_change = -40 ∧
    ¬ (GameEngine.process_turn {} ⟨"Escalate", "Risky", "Confident", "small_talk", []⟩
        0 0 0 "high").trust_change = -30 := by
  decide

/-- C6 amended: from the fresh dating state (vibe 30, trust 20, tension 0),
an Escalate/Risky turn with trust below the ick threshold 40 changes trust
by -40 (base -10 plus ick penalty -30, plus the trust jitter), changes
vibe by -20 (plus the vibe jitter), forces tension to 0 after the turn,
and appends the flag "ick_triggered" — for every jitter draw. -/
theorem ick_scenario_outcome (jv jt jn : Int) :
    (GameEngine.process_turn {} ⟨"Escalate", "Risky", "Confident", "small_talk", []⟩
        jv jt jn "high").vibe_change = jv - 20 ∧
    (GameEngine.process_turn {} ⟨"Escalate", "Risky", "Confident", "small_talk", []⟩
        jv jt jn "high").trust_change = jt - 40 ∧
    (GameEngine.process_turn {} ⟨"Escalate", "Risky", "Confident", "small_talk", []⟩
        jv jt jn "high").tension_change = 0 ∧
    (GameEngine.process_turn {} ⟨"Escalate", "Risky", "Confident", "small_talk", []⟩
        jv jt jn "high").state.tension = 0 ∧
    "ick_triggered" ∈ (GameEngine.process_turn {}
        ⟨"Escalate", "Risky", "Confident", "small_talk", []⟩ jv jt jn "high").flags := by
  have hd : GameEngine.calculate_delta {}
      ⟨"Escalate", "Risky", "Confident", "small_talk", []⟩ jv jt jn =
      ⟨jv - 20, jt - 40, 0, ["ick_triggered"]⟩ := by
    simp +decide [GameEngine.calculate_delta, SCORING_MATRIX,
      GameEngine.diminishing_returns, GameEngine.apply_context_rules,
      TRUST_ICK_THRESHOLD, VIBE_HIGH_THRESHOLD, CONTENT_VIOLATION_FLAGS]
    omega
  have hk : GameEngine.check_kiss_attempt {}
      ⟨"Escalate", "Risky", "Confident", "small_talk", []⟩ =
      (none, {}) := by decide
  have hdec : GameEngine.apply_passive_decay {} = ({}, 0) := by decide
  simp +decide [GameEngine.process_turn, hk, hd, hdec, kiss_ending_of,
    GameEngine.apply_deltas, GameState.clamp_stats, GameEngine.apply_phase_caps,
    finish_turn_tension, PHASE_ICEBREAKER_END, ICEBREAKER_TENSION_CAP,
    ICEBREAKER_STAT_CAP]

lemma pipeline_preserves_game_over (x : GameState) (d : Adj) (q : String) :
    (GameEngine.finish_turn (GameEngine.apply_phase_caps (GameState.clamp_stats
      (GameEngine.apply_deltas (GameEngine.apply_passive_decay x).1 d))) q).game_over
      = x.game_over := by
  rw [finish_turn_game_over, apply_phase_caps_game_over]
  simp only [GameState.clamp_stats, GameEngine.apply_deltas]
  rw [apply_passive_decay_game_over]

/-- C7: a kiss attempt with no active lockout and trust, vibe and tension
at or above the win thresholds (70, 60, 80) resolves to the S-rank kiss
win, and the processed turn reports that ending with game_over true. -/
theorem kiss_win_top_ending (s : GameState) (tags : Tags) (jv jt jn : Int)
    (q : String) (hintent : tags.intent = "KissAttempt")
    (hlock : s.lockout_turns = 0)
    (htrust : KISS_WIN_TRUST ≤ s.trust) (hvibe : KISS_WIN_VIBE ≤ s.vibe)
    (htension : KISS_WIN_TENSION ≤ s.tension) :
    GameEngine.check_kiss_attempt s tags =
      (some (true, some EndingType.sRankKiss), s) ∧
    (GameEngine.process_turn s tags jv jt jn q).state.game_over = true ∧
    (GameEngine.process_turn s tags jv jt jn q).ending =
      some EndingType.sRankKiss := by
  unfold KISS_WIN_TRUST at htrust
  unfold KISS_WIN_VIBE at hvibe
  unfold KISS_WIN_TENSION at htension
  have hk : GameEngine.check_kiss_attempt s tags =
      (some (true, some EndingType.sRankKiss), s) := by
    unfold GameEngine.check_kiss_attempt
    rw [if_neg (by simp [hintent])]
    rw [if_neg (by omega)]
    rw [if_neg (by unfold KISS_HARD_REJECT_TRUST; omega)]
    rw [if_neg (by unfold FUMBLE_MIN_TRUST FUMBLE_MIN_TENSION; omega)]
    rw [if_pos (by unfold KISS_WIN_TRUST KISS_WIN_VIBE KISS_WIN_TENSION; omega)]
  refine ⟨hk, ?_, ?_⟩ <;>
    simp [GameEngine.process_turn, hk, kiss_ending_of,
      pipeline_preserves_game_over]

/-- C7 witness: the claim scenario trust 75, vibe 65, tension 85 with no
lockout resolves to the S-rank kiss win with game_over true. -/
theorem kiss_win_top_ending_check :
    GameEngine.check_kiss_attempt { vibe := 65, trust := 75, tension := 85 }
        ⟨"KissAttempt", "Safe", "Confident", "kiss", []⟩ =
      (some (true, some EndingType.sRankKiss),
       { vibe := 65, trust := 75, tension := 85 }) ∧
    (GameEngine.process_turn { vibe := 65, trust := 75, tension := 85 }
        ⟨"KissAttempt", "Safe", "Confident", "kiss", []⟩ 0 0 0
        "high").state.game_over = true ∧
    (GameEngine.process_turn { vibe := 65, trust := 75, tension := 85 }
        ⟨"KissAttempt", "Safe", "Confident", "kiss", []⟩ 0 0 0 "high").ending =
      some EndingType.sRankKiss :=
  kiss_win_top_ending { vibe := 65, trust := 75, tension := 85 }
    ⟨"KissAttempt", "Safe", "Confident", "kiss", []⟩ 0 0 0 "high"
    rfl rfl (by decide) (by decide) (by decide)

/-- C8: at the debate turn ceiling (reached through check_game_over with
neither stat floor hit) with alignment at or above 70: a weight variance
(max minus min) at most 0.15 gives the balanced S-rank partner win;
otherwise a complexity weight at or above 0.60 with coherence at or above
50 gives the complexity-dominant S-rank curator win. -/
theorem ceiling_high_alignment_endings (s : PaperclipGameState)
    (halign : PAPERCLIP_S_RANK_ALIGNMENT ≤ s.alignment) :
    (s.weights.get_variance ≤ PAPERCLIP_PARTNER_WEIGHT_VARIANCE →
      PaperclipEngine.determine_ending s = PaperclipEndingType.sRankPartner) ∧
    (¬ s.weights.get_variance ≤ PAPERCLIP_PARTNER_WEIGHT_VARIANCE →
      PAPERCLIP_CURATOR_COMPLEXITY ≤ s.weights.complexity →
      PAPERCLIP_CURATOR_MIN_COHERENCE ≤ s.coherence →
      PaperclipEngine.determine_ending s = PaperclipEndingType.sRankCurator) ∧
    (0 < s.coherence → 0 < s.compute → PAPERCLIP_MAX_TURNS ≤ s.turn →
      PaperclipEngine.check_game_over s = some (PaperclipEngine.determine_ending s)) := by
  have halign20 : ¬ s.alignment < PAPERCLIP_F_RANK_ALIGNMENT := by
    unfold PAPERCLIP_S_RANK_ALIGNMENT at halign
    unfold PAPERCLIP_F_RANK_ALIGNMENT
    omega
  refine ⟨?_, ?_, ?_⟩
  · intro hvar
    unfold PaperclipEngine.determine_ending
    rw [if_neg halign20, if_pos ⟨halign, hvar⟩]
  · intro hnvar hcomp hcoh
    unfold PaperclipEngine.determine_ending
    rw [if_neg halign20]
    rw [if_neg fun h => hnvar h.2]
    rw [if_pos ⟨halign, hcomp, hcoh⟩]
  · intro h1 h2 h3
    unfold PaperclipEngine.check_game_over
    rw [if_neg (by omega), if_neg (by omega), if_pos h3]

/-- C8 witness: alignment 72 with weights (0.35, 0.35, 0.30), variance
0.05, ends as the balanced partner win; alignment 72 with coherence 55 and
weights (0.25, 0.65, 0.10), variance 0.55, ends as the curator win. -/
theorem ceiling_high_alignment_endings_check :
    PaperclipEngine.determine_ending
        { alignment := 72,
          weights := { carbon := 0.35, complexity := 0.35, verify := 0.30 } } =
      PaperclipEndingType.sRankPartner ∧
    PaperclipEngine.determine_ending
        { alignment := 72, coherence := 55,
          weights := { carbon := 0.25, complexity := 0.65, verify := 0.10 } } =
      PaperclipEndingType.sRankCurator :=
  ⟨(ceiling_high_alignment_endings
      { alignment := 72,
        weights := { carbon := 0.35, complexity := 0.35, verify := 0.30 } }
      (by decide)).1
      (by norm_num [Weights.get_variance, PAPERCLIP_PARTNER_WEIGHT_VARIANCE,
        max_def, min_def]),
   ((ceiling_high_alignment_endings
      { alignment := 72, coherence := 55,
        weights := { carbon := 0.25, complexity := 0.65, verify := 0.10 } }
      (by decide)).2.1
      (by norm_num [Weights.get_variance, PAPERCLIP_PARTNER_WEIGHT_VARIANCE,
        max_def, min_def])
      (by norm_num [PAPERCLIP_CURATOR_COMPLEXITY])
      (by decide))⟩

/-- A sequence of use_log calls (log id and argument vector per call),
folded over the manager state. -/
def use_log_seq (m : MemoryLogManager) (calls : List (String × String)) :
    MemoryLogManager :=
  calls.foldl (fun mm c => (mm.use_log c.1 c.2).2) m

lemma use_log_assigned_eq (m : MemoryLogManager) (lid vec : String) :
    ((m.use_log lid vec).2).assigned_logs = m.assigned_logs := by
  unfold MemoryLogManager.use_log
  cases hres : get_log_by_id lid
  · rfl
  · dsimp only
    split_ifs <;> rfl

lemma append_available_subset (A U : List String) (l : String) :
    MemoryLogManager.get_available_log_ids ⟨A, U ++ [l]⟩ ⊆
      MemoryLogManager.get_available_log_ids ⟨A, U⟩ := by
  intro x hx
  simp only [MemoryLogManager.get_available_log_ids, List.mem_filter,
    decide_eq_true_eq, List.mem_append, List.mem_singleton] at hx ⊢
  exact ⟨hx.1, fun hc => hx.2 (Or.inl hc)⟩

lemma use_log_available_subset (m : MemoryLogManager) (lid vec : String) :
    ((m.use_log lid vec).2).get_available_log_ids ⊆ m.get_available_log_ids := by
  unfold MemoryLogManager.use_log
  cases hres : get_log_by_id lid
  · exact fun x hx => hx
  · dsimp only
    split_ifs <;> first
      | exact fun x hx => hx
      | exact append_available_subset m.assigned_logs m.used_logs lid

lemma use_log_seq_available_subset (calls : List (String × String)) :
    ∀ m : MemoryLogManager,
      (use_log_seq m calls).get_available_log_ids ⊆ m.get_available_log_ids := by
  induction calls with
  | nil => exact fun m x hx => hx
  | cons c cs ih =>
    intro m
    exact (ih ((m.use_log c.1 c.2).2)).trans (use_log_available_subset m c.1 c.2)

/-- C9: calling use_log with a catalogued id that is already consumed or
not assigned returns the fixed penalty (-5, 0) with an error marker and
leaves the manager unchanged; every single call preserves the assigned
list and can only shrink the available set, and so any sequence of
use_log calls never grows the available set. -/
theorem use_log_penalty_and_monotonic :
    (∀ (m : MemoryLogManager) (lid vec : String),
      (get_log_by_id lid).isSome →
      lid ∈ m.used_logs ∨ lid ∉ m.assigned_logs →
      ∃ e, MemoryLogManager.use_log m lid vec = ((-5, 0, e), m) ∧
        (e = LogUseData.already_used ∨ e = LogUseData.not_available)) ∧
    (∀ (m : MemoryLogManager) (lid vec : String),
      ((m.use_log lid vec).2).assigned_logs = m.assigned_logs ∧
      ((m.use_log lid vec).2).get_available_log_ids ⊆ m.get_available_log_ids) ∧
    (∀ (m : MemoryLogManager) (calls : List (String × String)),
      (use_log_seq m calls).get_available_log_ids ⊆ m.get_available_log_ids) := by
  refine ⟨?_, fun m lid vec => ⟨use_log_assigned_eq m lid vec,
    use_log_available_subset m lid vec⟩,
    fun m calls => use_log_seq_available_subset calls m⟩
  intro m lid vec hsome hbad
  obtain ⟨log, hlog⟩ := Option.isSome_iff_exists.mp hsome
  by_cases hu : lid ∈ m.used_logs
  · refine ⟨LogUseData.already_used, ?_, Or.inl rfl⟩
    unfold MemoryLogManager.use_log
    rw [hlog]
    dsimp only
    rw [if_pos hu]
  · refine ⟨LogUseData.not_available, ?_, Or.inr rfl⟩
    unfold MemoryLogManager.use_log
    rw [hlog]
    dsimp only
    rw [if_neg hu, if_pos (hbad.resolve_left hu)]

/-- C9 witness: with logs LOG_03 and LOG_09 assigned and LOG_03 already
consumed, citing LOG_03 again returns the fixed penalty with an error
marker and does not change the manager. -/
theorem use_log_penalty_and_monotonic_check :
    ∃ e, MemoryLogManager.use_log ⟨["LOG_03", "LOG_09"], ["LOG_03"]⟩
        "LOG_03" "complexity" = ((-5, 0, e), ⟨["LOG_03", "LOG_09"], ["LOG_03"]⟩) ∧
      (e = LogUseData.already_used ∨ e = LogUseData.not_available) :=
  use_log_penalty_and_monotonic.1 ⟨["LOG_03", "LOG_09"], ["LOG_03"]⟩
    "LOG_03" "complexity" (by decide) (Or.inl (by decide))

/-- C10: use_log with an id that is absent from the memory-log catalog
returns (0, 0, empty dict) with no penalty and no error marker, and leaves
the assigned and used sets unchanged. -/
theorem use_log_unknown_id_no_effect (m : MemoryLogManager) (lid vec : String)
    (h : get_log_by_id lid = none) :
    MemoryLogManager.use_log m lid vec = ((0, 0, LogUseData.empty), m) := by
  unfold MemoryLogManager.use_log
  rw [h]

/-- C10 witness: LOG_99 is not in the catalog; citing it has no effect. -/
theorem use_log_unknown_id_no_effect_check :
    MemoryLogManager.use_log ⟨["LOG_03"], []⟩ "LOG_99" "meta" =
      ((0, 0, LogUseData.empty), ⟨["LOG_03"], []⟩) :=
  use_log_unknown_id_no_effect ⟨["LOG_03"], []⟩ "LOG_99" "meta" (by decide)
